import Mathlib

/-!
Verification development for the URLSummarizer plugin (src/main.py).

The plugin pipeline is: given a URL, download its audio track to a local
temporary file (yt-dlp), transcribe it (Whisper API), summarize the
transcript (Dify workflow HTTP call), streaming progress notifications to
the caller and deleting the temporary file in a finally block.

The embedding below is shallow: external effects (the yt-dlp download, the
Whisper call, the Dify HTTP call, os.remove) are oracles supplied in a
`RunEnv`; the local filesystem is a list of existing paths; the stream of
yielded notifications is a list of strings.  Python exceptions raised by a
stage are modelled as `Except String` values carrying `str(e)`; library
and runtime error texts (httpx HTTPStatusError, Python TypeError /
KeyError messages) are modelled as fixed tokens since only the
handler-level formatting of messages comes from this repository.
-/

/-- JSON values, restricted to the shapes the plugin manipulates
(`response.json()` of the Dify call: objects, strings, null/None).
The Python operators `in` and `[]` on these values are embedded with
their real semantics (key membership and lookup on a dict, substring
test on a str, TypeError on None) by `pyContains` and `pySubscript`
below. -/
inductive Json where
  | null : Json
  | str : String → Json
  | obj : List (String × Json) → Json

/-- First-match lookup in an association list (Python dicts cannot hold
duplicate keys, so first-match agrees with dict lookup). -/
def lookupKV (k : String) : List (String × Json) → Option Json
  | [] => none
  | (k2, v) :: rest => if k2 = k then some v else lookupKV k rest

/-- `data[k]` / `k in data` support: `some` iff `data` is an object having
key `k`. -/
def Json.get? : Json → String → Option Json
  | Json.obj kvs, k => lookupKV k kvs
  | _, _ => none

/-- Whether the value is a Python dict. -/
def Json.isObj : Json → Bool
  | Json.obj _ => true
  | _ => false

/-- Pure presence of the nested `outputs[key]` member of a response,
used to phrase theorem statements (not by the embedded code itself). -/
def nestedGet (data : Json) (key : String) : Option Json :=
  (Json.get? data "outputs").bind (fun o => Json.get? o key)

/-- Whether the second character list starts with the first. -/
def charsStartWith : List Char → List Char → Bool
  | [], _ => true
  | _ :: _, [] => false
  | a :: as, b :: bs => a == b && charsStartWith as bs

/-- Whether `k` occurs contiguously inside the character list. -/
def charsContain (k : List Char) : List Char → Bool
  | [] => charsStartWith k []
  | b :: bs => charsStartWith k (b :: bs) || charsContain k bs

/-- Python substring test `k in s` for strings. -/
def pyStrContains (k s : String) : Bool := charsContain k.toList s.toList

/-- `str(e)` of the TypeError raised by `k in None`. -/
def typeErrNotIterable : String :=
  "argument of type \x27NoneType\x27 is not iterable"

/-- `str(e)` of the TypeError raised by subscripting a str with a str. -/
def typeErrStrIndices : String := "string indices must be integers"

/-- `str(e)` of the TypeError raised by subscripting None. -/
def typeErrNoneSub : String := "\x27NoneType\x27 object is not subscriptable"

/-- `str(e)` of the KeyError raised by a failing dict subscript. -/
def keyErrMsg (k : String) : String := "\x27" ++ k ++ "\x27"

/-- Python membership `k in x` for the modelled values: key membership
on a dict, substring test on a str, and a TypeError on None (`in` is
not defined for NoneType). -/
def pyContains (k : String) : Json → Except String Bool
  | Json.obj kvs => Except.ok (lookupKV k kvs).isSome
  | Json.str s => Except.ok (pyStrContains k s)
  | Json.null => Except.error typeErrNotIterable

/-- Python subscript `x[k]` for the modelled values: dict lookup
(KeyError when the key is absent), TypeError on a str subscripted with a
str, TypeError on None. -/
def pySubscript (x : Json) (k : String) : Except String Json :=
  match x with
  | Json.obj kvs =>
    match lookupKV k kvs with
    | some v => Except.ok v
    | none => Except.error (keyErrMsg k)
  | Json.str _ => Except.error typeErrStrIndices
  | Json.null => Except.error typeErrNoneSub

mutual
/-- Python `repr` of the modelled values (single-quoted strings, braced
dicts), used by `str()` on non-str values. -/
def pyReprJson : Json → String
  | Json.null => "None"
  | Json.str s => "\x27" ++ s ++ "\x27"
  | Json.obj kvs => "\x7b" ++ pyReprFields kvs ++ "\x7d"

/-- `repr` of the comma-separated field list of a dict. -/
def pyReprFields : List (String × Json) → String
  | [] => ""
  | [(k, v)] => "\x27" ++ k ++ "\x27: " ++ pyReprJson v
  | (k, v) :: rest => "\x27" ++ k ++ "\x27: " ++ pyReprJson v ++ ", " ++ pyReprFields rest
end

/-- Python `str()` as used by the f-string `f"总结:\n{summary}"`. -/
def pyStr : Json → String
  | Json.str s => s
  | j => pyReprJson j

/-- Python truthiness of `self.config.get(key)`: `None` (key absent) and
the empty string are falsy. -/
def truthy : Option String → Bool
  | none => false
  | some s => s ≠ ""

/-- `str()` of an `Option String` (Python renders `None` as "None" inside
an f-string such as the Authorization header). -/
def optStr : Option String → String
  | none => "None"
  | some s => s

/-- Raw plugin configuration as stored by the host: `config.get(key)`
yields `none` when the key is absent.  Fields mirror the schema keys
`stt_provider_id`, `dify_provider_id`, `dify_workflow_url`,
`dify_input_variable`, `dify_answer_key`. -/
structure RawConfig where
  stt_provider_id : Option String
  dify_provider_id : Option String
  dify_workflow_url : Option String
  dify_input_variable : Option String
  dify_answer_key : Option String

/-- A provider instance from the host registry; `api_key = none` models
the instance lacking the `api_key` attribute (`hasattr` false). -/
structure Provider where
  api_key : Option String

/-- The mutable attributes `__init__` leaves on the plugin object. -/
structure PluginState where
  is_configured : Bool
  openai_api_key : Option String
  dify_api_key : Option String
  dify_workflow_url : Option String
  dify_input_variable : String
  dify_answer_key : String

/-- Result of constructing the plugin: the resulting attribute state plus
the number of `httpx.AsyncClient` instances created (line 66 runs
unconditionally, before the try block). -/
structure InitOutcome where
  state : PluginState
  httpx_clients_created : Nat

/-- `URLSummarizerPlugin.__init__` (src/main.py lines 57-101): reads the
raw config, creates the shared httpx client, and validates: the three
values `stt_provider_id`, `dify_provider_id`, `dify_workflow_url` must be
truthy, and both provider ids must resolve in the registry to instances
carrying an `api_key`; only then is `is_configured` set. -/
def pluginInit (cfg : RawConfig) (registry : String → Option Provider) : InitOutcome :=
  let base : PluginState :=
    { is_configured := false
      openai_api_key := none
      dify_api_key := none
      dify_workflow_url := cfg.dify_workflow_url
      dify_input_variable := cfg.dify_input_variable.getD "transcript"
      dify_answer_key := cfg.dify_answer_key.getD "answer" }
  if truthy cfg.stt_provider_id && truthy cfg.dify_provider_id
      && truthy cfg.dify_workflow_url then
    match (registry (cfg.stt_provider_id.getD "")).bind Provider.api_key with
    | none => { state := base, httpx_clients_created := 1 }
    | some sttKey =>
      let st1 := { base with openai_api_key := some sttKey }
      match (registry (cfg.dify_provider_id.getD "")).bind Provider.api_key with
      | none => { state := st1, httpx_clients_created := 1 }
      | some difyKey =>
        { state := { st1 with dify_api_key := some difyKey, is_configured := true }
          httpx_clients_created := 1 }
  else
    { state := base, httpx_clients_created := 1 }

/-- `URLSummarizerPlugin.terminate` (src/main.py lines 195-197): returns
the number of `aclose()` calls performed on the shared httpx client —
the close is guarded by `if self.is_configured`. -/
def terminatePlugin (st : PluginState) : Nat :=
  if st.is_configured then 1 else 0

/-- The HTTP request `_summarize_text` hands to `httpx_client.post`. -/
structure HttpRequest where
  url : Option String
  authorization : String
  contentType : String
  body : Json

/-- An HTTP response: status code and parsed JSON body. -/
structure HttpResponse where
  status : Nat
  body : Json

/-- The request built by `_summarize_text` (src/main.py lines 166-180):
payload `{inputs: {<dify_input_variable>: text}, response_mode:
"blocking", user: "astrbot-url-summarizer"}`, bearer Authorization,
JSON content type, posted to the configured workflow URL. -/
def summarizeRequest (st : PluginState) (text : String) : HttpRequest :=
  { url := st.dify_workflow_url
    authorization := "Bearer " ++ optStr st.dify_api_key
    contentType := "application/json"
    body := Json.obj
      [("inputs", Json.obj [(st.dify_input_variable, Json.str text)]),
       ("response_mode", Json.str "blocking"),
       ("user", Json.str "astrbot-url-summarizer")] }

/-- `httpx` success range: `raise_for_status` raises unless 2xx. -/
def is2xx (status : Nat) : Bool := 200 ≤ status && status < 300

/-- Token standing for `str()` of the `httpx.HTTPStatusError` that
`response.raise_for_status()` raises on a non-2xx status. -/
def httpStatusErrMsg (status : Nat) : String :=
  "HTTPStatusError: status " ++ toString status

/-- The message of the `ValueError` raised when the Dify response lacks
the answer field (src/main.py line 193). -/
def difyFormatErrMsg : String := "Dify API 响应格式不符合预期。"

/-- Answer-field resolution of `_summarize_text` (src/main.py lines
185-193), with Python evaluation made explicit:
`if 'outputs' in data and key in data['outputs']` short-circuits (the
right conjunct is evaluated only when the left is true) and may itself
raise — `in` on None is a TypeError, and a str value passes `in` by
substring containment but then raises on `['outputs']`/`[key]`; on a
true condition return `data['outputs'][key]`; `elif key in data` return
`data[key]`; else raise the `ValueError`. -/
def resolveAnswer (key : String) (data : Json) : Except String Json :=
  match pyContains "outputs" data with
  | Except.error e => Except.error e
  | Except.ok hasOutputs =>
    let nestedCond : Except String Bool :=
      if hasOutputs then
        match pySubscript data "outputs" with
        | Except.error e => Except.error e
        | Except.ok outs => pyContains key outs
      else Except.ok false
    match nestedCond with
    | Except.error e => Except.error e
    | Except.ok true =>
      match pySubscript data "outputs" with
      | Except.error e => Except.error e
      | Except.ok outs => pySubscript outs key
    | Except.ok false =>
      match pyContains key data with
      | Except.error e => Except.error e
      | Except.ok true => pySubscript data key
      | Except.ok false => Except.error difyFormatErrMsg

/-- `_summarize_text` (src/main.py lines 166-193): posts
`summarizeRequest` through the supplied HTTP oracle (`Except.error`
models a transport exception such as a timeout), raises for non-2xx
status, then resolves the answer field from the response JSON. -/
def summarizeText (st : PluginState) (text : String)
    (http : HttpRequest → Except String HttpResponse) : Except String Json :=
  match http (summarizeRequest st text) with
  | Except.error e => Except.error e
  | Except.ok resp =>
    if is2xx resp.status then
      resolveAnswer st.dify_answer_key resp.body
    else
      Except.error (httpStatusErrMsg resp.status)

/-- Notification texts yielded by `summarize_url_handler`
(src/main.py lines 107, 112, 116, 120, 124, 128). -/
def configErrorMsg : String :=
  "URLSummarizer 插件未配置或配置错误。请检查 WebUI 设置和日志。"

/-- First progress notification (yielded before the download starts). -/
def processingMsg : String := "收到 URL。正在处理音频..."

/-- Progress notification after the download, before transcription. -/
def downloadedMsg : String := "音频已下载。正在转录..."

/-- Progress notification after transcription, before summarization. -/
def transcribedMsg : String := "文稿已生成。正在总结..."

/-- Final notification on success: `f"总结:\n{summary}"`. -/
def summaryMsg (s : String) : String := "总结:\n" ++ s

/-- Error notification from the except branch:
`f"处理 URL 失败。 错误: {str(e)}"`. -/
def failureMsg (e : String) : String := "处理 URL 失败。 错误: " ++ e

/-- The external effects one run can observe: the path
`tempfile.NamedTemporaryFile(suffix=".m4a", delete=False)` allocates,
the outcome of `ydl.download([url])`, the outcome of the Whisper
transcription call, the Dify HTTP oracle, and whether `os.remove`
succeeds during cleanup. -/
structure RunEnv where
  tmpPath : String
  download : Except String Unit
  transcribe : Except String String
  http : HttpRequest → Except String HttpResponse
  removeOk : Bool

/-- Observable outcome of one handler run: the yielded notifications in
order, the filesystem after the run, the temp files created during the
run, which stages were invoked, and whether an exception escaped to the
caller (the handler catches every `Exception`, so the embedding records
`none` in each branch the except/finally structure produces). -/
structure RunResult where
  notifications : List String
  fsAfter : List String
  created : List String
  downloadCalled : Bool
  transcribeCalled : Bool
  summarizeCalled : Bool
  escaped : Option String

/-- `_download_audio` (src/main.py lines 137-156): the
`NamedTemporaryFile(..., delete=False)` context manager creates the file
at a fresh path (it now exists on disk) and the name is kept; then
`ydl.download([url])` runs, filling that path on success or raising.
The allocated path is returned only if the download did not raise. -/
def downloadAudio (env : RunEnv) (fs : List String) :
    List String × Except String String :=
  let fs1 := env.tmpPath :: fs
  match env.download with
  | Except.ok _ => (fs1, Except.ok env.tmpPath)
  | Except.error e => (fs1, Except.error e)

/-- The finally block (src/main.py lines 130-135): if `audio_path` is set
(truthy) and the file exists, try `os.remove`; a failing remove is logged
and swallowed, leaving the filesystem unchanged. -/
def cleanupFS (audioPath : Option String) (removeOk : Bool)
    (fs : List String) : List String :=
  match audioPath with
  | none => fs
  | some p =>
    if fs.contains p then
      if removeOk then fs.erase p else fs
    else fs

/-- `summarize_url_handler` (src/main.py lines 104-135): reject when not
configured (single notification, before the try block, so no cleanup
runs); otherwise yield progress notifications around the three stages,
catch any stage exception into a single failure notification, and run
the finally-cleanup with whatever `audio_path` holds at that point —
still `None` when `_download_audio` itself raised. -/
def runHandler (st : PluginState) (env : RunEnv) (fs0 : List String) :
    RunResult :=
  if st.is_configured = false then
    { notifications := [configErrorMsg]
      fsAfter := fs0
      created := []
      downloadCalled := false
      transcribeCalled := false
      summarizeCalled := false
      escaped := none }
  else
    match downloadAudio env fs0 with
    | (fs1, Except.error e) =>
      { notifications := [processingMsg, failureMsg e]
        fsAfter := cleanupFS none env.removeOk fs1
        created := [env.tmpPath]
        downloadCalled := true
        transcribeCalled := false
        summarizeCalled := false
        escaped := none }
    | (fs1, Except.ok path) =>
      match env.transcribe with
      | Except.error e =>
        { notifications := [processingMsg, downloadedMsg, failureMsg e]
          fsAfter := cleanupFS (some path) env.removeOk fs1
          created := [env.tmpPath]
          downloadCalled := true
          transcribeCalled := true
          summarizeCalled := false
          escaped := none }
      | Except.ok transcript =>
        match summarizeText st transcript env.http with
        | Except.error e =>
          { notifications :=
              [processingMsg, downloadedMsg, transcribedMsg, failureMsg e]
            fsAfter := cleanupFS (some path) env.removeOk fs1
            created := [env.tmpPath]
            downloadCalled := true
            transcribeCalled := true
            summarizeCalled := true
            escaped := none }
        | Except.ok summary =>
          { notifications :=
              [processingMsg, downloadedMsg, transcribedMsg,
               summaryMsg (pyStr summary)]
            fsAfter := cleanupFS (some path) env.removeOk fs1
            created := [env.tmpPath]
            downloadCalled := true
            transcribeCalled := true
            summarizeCalled := true
            escaped := none }

/-! Concrete fixtures used by witnesses and counterexamples. -/

/-- Plugin state after a failed configuration validation. -/
def stUnconfigured : PluginState :=
  { is_configured := false
    openai_api_key := none
    dify_api_key := none
    dify_workflow_url := none
    dify_input_variable := "transcript"
    dify_answer_key := "answer" }

/-- Plugin state after a successful configuration validation. -/
def stConfigured : PluginState :=
  { is_configured := true
    openai_api_key := some "sk-stt"
    dify_api_key := some "sk-dify"
    dify_workflow_url := some "https://dify.example/v1/workflows/run"
    dify_input_variable := "transcript"
    dify_answer_key := "answer" }

/-- Dify response body `{outputs: {answer: "Summary: greeting"}}`. -/
def happyBody : Json :=
  Json.obj [("outputs", Json.obj [("answer", Json.str "Summary: greeting")])]

/-- HTTP oracle: the summarizer stub answers 200 with `happyBody`. -/
def httpHappy : HttpRequest → Except String HttpResponse :=
  fun _ => Except.ok { status := 200, body := happyBody }

/-- Run environment where all three stages succeed. -/
def envHappy : RunEnv :=
  { tmpPath := "/tmp/tmpabc.m4a"
    download := Except.ok ()
    transcribe := Except.ok "hello world"
    http := httpHappy
    removeOk := true }

/-- Run environment where `ydl.download` raises. -/
def envDownloadFault : RunEnv :=
  { envHappy with download := Except.error "Unsupported URL" }

/-- Run environment where the Whisper call raises. -/
def envTranscribeFault : RunEnv :=
  { envHappy with transcribe := Except.error "Transcription API error" }

/-- Run environment where the summarizer returns a 500. -/
def envSummarizeFault : RunEnv :=
  { envHappy with http := fun _ => Except.ok { status := 500, body := Json.obj [] } }

/-- Provider registry holding an STT provider "stt-1" and a Dify provider
"dify-1", both carrying api keys. -/
def regBoth : String → Option Provider := fun id =>
  if id = "stt-1" then some { api_key := some "sk-stt" }
  else if id = "dify-1" then some { api_key := some "sk-dify" }
  else none

/-- Raw configuration whose three checked values are truthy but whose
`dify_input_variable` is stored as the empty string. -/
def cfgEmptyInputVar : RawConfig :=
  { stt_provider_id := some "stt-1"
    dify_provider_id := some "dify-1"
    dify_workflow_url := some "https://dify.example/v1/workflows/run"
    dify_input_variable := some ""
    dify_answer_key := some "answer" }

/-- Raw configuration with an empty STT provider id (validation fails). -/
def cfgMissingStt : RawConfig :=
  { stt_provider_id := some ""
    dify_provider_id := some "dify-1"
    dify_workflow_url := some "https://dify.example/v1/workflows/run"
    dify_input_variable := none
    dify_answer_key := none }

/-- Dify response body `{outputs: {}, answer: "X"}` (empty outputs
object, top-level answer). -/
def bodyEmptyOutputsTop : Json :=
  Json.obj [("outputs", Json.obj []), ("answer", Json.str "X")]

/-- Dify response body `{foo: "bar"}` (no answer anywhere). -/
def bodyNoAnswer : Json := Json.obj [("foo", Json.str "bar")]

/-- Evaluating `summarizeText` against an oracle that returns one fixed
response. -/
theorem summarizeText_fixed (st : PluginState) (text : String)
    (status : Nat) (data : Json) :
    summarizeText st text (fun _ => Except.ok { status := status, body := data }) =
      if is2xx status then resolveAnswer st.dify_answer_key data
      else Except.error (httpStatusErrMsg status) := rfl

/-- `Json.get?` on `null` finds nothing. -/
theorem get_null (k : String) : Json.get? Json.null k = none := rfl

/-- On an object, `Json.get?` is the association-list lookup. -/
theorem get_obj (k : String) (kvs : List (String × Json)) :
    Json.get? (Json.obj kvs) k = lookupKV k kvs := rfl

/-- `resolveAnswer` falls back to the top-level key when `data` is an
object, its `outputs` member (if present) is an object, the nested
lookup fails and the top-level key is present. -/
theorem resolveAnswer_toplevel (key : String) (data v : Json)
    (hd : data.isObj = true)
    (ho : ∀ o, Json.get? data "outputs" = some o → o.isObj = true)
    (hmiss : nestedGet data key = none)
    (htop : Json.get? data key = some v) :
    resolveAnswer key data = Except.ok v := by
  cases data with
  | null => simp [Json.isObj] at hd
  | str s => simp [Json.isObj] at hd
  | obj kvs =>
    rw [get_obj] at htop
    unfold nestedGet at hmiss
    rw [get_obj] at hmiss
    cases hout : lookupKV "outputs" kvs with
    | none =>
      simp [resolveAnswer, pyContains, pySubscript, hout, htop]
    | some o =>
      have hobj : o.isObj = true := ho o (by rw [get_obj]; exact hout)
      cases o with
      | null => simp [Json.isObj] at hobj
      | str s2 => simp [Json.isObj] at hobj
      | obj okvs =>
        rw [hout] at hmiss
        change Json.get? (Json.obj okvs) key = none at hmiss
        rw [get_obj] at hmiss
        simp [resolveAnswer, pyContains, pySubscript, hout, hmiss, htop]

/-- Claim C1: whenever the plugin is unconfigured (`is_configured`
false), a run yields exactly the single configuration-error notification
and invokes none of the three external-service stages. -/
theorem c1_unconfigured_rejects (st : PluginState) (env : RunEnv)
    (fs0 : List String) (h : st.is_configured = false) :
    (runHandler st env fs0).notifications = [configErrorMsg] ∧
    (runHandler st env fs0).downloadCalled = false ∧
    (runHandler st env fs0).transcribeCalled = false ∧
    (runHandler st env fs0).summarizeCalled = false ∧
    (runHandler st env fs0).escaped = none := by
  simp [runHandler, h]

/-- Witness for C1 at a concrete unconfigured state and environment. -/
theorem c1_witness :
    (runHandler stUnconfigured envHappy []).notifications = [configErrorMsg] ∧
    (runHandler stUnconfigured envHappy []).downloadCalled = false ∧
    (runHandler stUnconfigured envHappy []).transcribeCalled = false ∧
    (runHandler stUnconfigured envHappy []).summarizeCalled = false ∧
    (runHandler stUnconfigured envHappy []).escaped = none :=
  c1_unconfigured_rejects stUnconfigured envHappy [] rfl

/-- Claim C10: a JSON-object response containing an `outputs` object
that lacks the configured answer key still falls back to the top-level
answer key — the presence of the `outputs` object does not short-circuit
the fallback (and, the member being an object, no TypeError path is
taken). -/
theorem c10_outputs_without_key_falls_back (st : PluginState)
    (text : String) (status : Nat) (kvs outs : List (String × Json))
    (v : Json) (h2 : is2xx status = true)
    (houts : Json.get? (Json.obj kvs) "outputs" = some (Json.obj outs))
    (hmiss : Json.get? (Json.obj outs) st.dify_answer_key = none)
    (htop : Json.get? (Json.obj kvs) st.dify_answer_key = some v) :
    summarizeText st text
      (fun _ => Except.ok { status := status, body := Json.obj kvs }) =
      Except.ok v := by
  rw [summarizeText_fixed, h2, if_pos rfl]
  refine resolveAnswer_toplevel _ (Json.obj kvs) v rfl ?_ ?_ htop
  · intro o h
    rw [← Option.some.inj (houts.symm.trans h)]
    rfl
  · unfold nestedGet
    rw [houts]
    exact hmiss

/-- Witness for C10: `{outputs: {}, answer: "X"}` yields "X". -/
theorem c10_witness :
    summarizeText stConfigured "hello world"
      (fun _ => Except.ok { status := 200, body := bodyEmptyOutputsTop }) =
      Except.ok (Json.str "X") :=
  c10_outputs_without_key_falls_back stConfigured "hello world" 200
    [("outputs", Json.obj []), ("answer", Json.str "X")] [] (Json.str "X")
    rfl rfl rfl rfl

/-- Claim C2 (failing-input evaluation): with a valid configuration and a
fault injected at the download stage (`ydl.download` raises), the temp
file pre-allocated by `NamedTemporaryFile(delete=False)` is created but
still exists on local storage after the run completes — the handler's
`audio_path` is still `None`, so the finally-cleanup skips it. -/
theorem c2_download_fault_leaves_temp_file :
    (runHandler stConfigured envDownloadFault []).created = ["/tmp/tmpabc.m4a"] ∧
    (runHandler stConfigured envDownloadFault []).fsAfter = ["/tmp/tmpabc.m4a"] ∧
    (runHandler stConfigured envDownloadFault []).notifications =
      [processingMsg, failureMsg "Unsupported URL"] :=
  ⟨rfl, rfl, rfl⟩

/-- Claim C5 counterexample: on the happy path the run yields four
notifications, not the claimed six — the downloaded/transcribing and
transcript-complete/summarizing events are merged into one message
each. -/
theorem c5_counterexample_four_not_six :
    (runHandler stConfigured envHappy []).notifications =
      [processingMsg, downloadedMsg, transcribedMsg,
       summaryMsg "Summary: greeting"] ∧
    (runHandler stConfigured envHappy []).notifications.length = 4 ∧
    ¬ (runHandler stConfigured envHappy []).notifications.length = 6 := by
  refine ⟨rfl, rfl, ?_⟩
  intro h
  rw [show (runHandler stConfigured envHappy []).notifications.length = 4 from rfl] at h
  exact absurd h (by decide)

/-- Claim C5 (amended): on the happy path (configured plugin, download
and transcription succeed, summarizer yields the string s), the run
yields exactly four notifications — downloading, downloaded/transcribing,
transcript-complete/summarizing, and finally the summary text — covering
the six stage events in the claimed order. -/
theorem c5_amended_happy_sequence (st : PluginState) (env : RunEnv)
    (fs0 : List String) (s : String)
    (hc : st.is_configured = true)
    (hd : env.download = Except.ok ())
    (ht : env.transcribe = Except.ok "hello world")
    (hs : summarizeText st "hello world" env.http = Except.ok (Json.str s)) :
    (runHandler st env fs0).notifications =
      [processingMsg, downloadedMsg, transcribedMsg, summaryMsg s] ∧
    (runHandler st env fs0).notifications.getLast? = some (summaryMsg s) := by
  have hn : (runHandler st env fs0).notifications =
      [processingMsg, downloadedMsg, transcribedMsg, summaryMsg s] := by
    simp [runHandler, downloadAudio, hc, hd, ht, hs, pyStr]
  exact ⟨hn, by rw [hn]; rfl⟩

/-- Witness for the amended C5 at the concrete happy-path environment. -/
theorem c5_amended_witness :
    (runHandler stConfigured envHappy []).notifications =
      [processingMsg, downloadedMsg, transcribedMsg,
       summaryMsg "Summary: greeting"] ∧
    (runHandler stConfigured envHappy []).notifications.getLast? =
      some (summaryMsg "Summary: greeting") :=
  c5_amended_happy_sequence stConfigured envHappy [] "Summary: greeting"
    rfl rfl rfl rfl

/-- Claim C6: whichever stage fails, the run's notification stream is the
progress messages already emitted followed by exactly one error
notification embedding `str(e)`, with nothing after it, and no exception
escapes to the caller. -/
theorem c6_single_error_notification (st : PluginState) (env : RunEnv)
    (fs0 : List String) (hc : st.is_configured = true) :
    (∀ e, env.download = Except.error e →
      (runHandler st env fs0).notifications = [processingMsg, failureMsg e] ∧
      (runHandler st env fs0).escaped = none) ∧
    (∀ e, env.download = Except.ok () → env.transcribe = Except.error e →
      (runHandler st env fs0).notifications =
        [processingMsg, downloadedMsg, failureMsg e] ∧
      (runHandler st env fs0).escaped = none) ∧
    (∀ t e, env.download = Except.ok () → env.transcribe = Except.ok t →
      summarizeText st t env.http = Except.error e →
      (runHandler st env fs0).notifications =
        [processingMsg, downloadedMsg, transcribedMsg, failureMsg e] ∧
      (runHandler st env fs0).escaped = none) := by
  refine ⟨?_, ?_, ?_⟩
  · intro e hd
    constructor <;> simp [runHandler, downloadAudio, hc, hd]
  · intro e hd ht
    constructor <;> simp [runHandler, downloadAudio, hc, hd, ht]
  · intro t e hd ht hs
    constructor <;> simp [runHandler, downloadAudio, hc, hd, ht, hs]

/-- Witness for C6 at a concrete download-stage fault. -/
theorem c6_witness :
    (runHandler stConfigured envDownloadFault []).notifications =
      [processingMsg, failureMsg "Unsupported URL"] ∧
    (runHandler stConfigured envDownloadFault []).escaped = none :=
  (c6_single_error_notification stConfigured envDownloadFault [] rfl).1
    "Unsupported URL" rfl

/-- Claim C7: when an audio path was recorded (download succeeded) and
`os.remove` fails during cleanup, the run's notifications are exactly
those of the same run with a succeeding remove, nothing extra is
surfaced, no exception escapes — and the file is left on disk. -/
theorem c7_remove_failure_swallowed (st : PluginState) (env : RunEnv)
    (fs0 : List String) (hc : st.is_configured = true)
    (hd : env.download = Except.ok ()) :
    (runHandler st { env with removeOk := false } fs0).notifications =
      (runHandler st { env with removeOk := true } fs0).notifications ∧
    (runHandler st { env with removeOk := false } fs0).escaped = none ∧
    (runHandler st { env with removeOk := false } fs0).fsAfter.contains
      env.tmpPath = true := by
  cases ht : env.transcribe with
  | error e =>
    refine ⟨?_, ?_, ?_⟩ <;>
      simp [runHandler, downloadAudio, cleanupFS, hc, hd, ht]
  | ok t =>
    cases hs : summarizeText st t env.http with
    | error e =>
      refine ⟨?_, ?_, ?_⟩ <;>
        simp [runHandler, downloadAudio, cleanupFS, hc, hd, ht, hs]
    | ok s =>
      refine ⟨?_, ?_, ?_⟩ <;>
        simp [runHandler, downloadAudio, cleanupFS, hc, hd, ht, hs]

/-- Witness for C7 at the concrete happy-path environment with a failing
remove. -/
theorem c7_witness :
    (runHandler stConfigured { envHappy with removeOk := false } []).notifications =
      (runHandler stConfigured { envHappy with removeOk := true } []).notifications ∧
    (runHandler stConfigured { envHappy with removeOk := false } []).escaped = none ∧
    (runHandler stConfigured { envHappy with removeOk := false } []).fsAfter.contains
      envHappy.tmpPath = true :=
  c7_remove_failure_swallowed stConfigured envHappy [] rfl rfl

/-- Claim C8: the summarizer request carries the payload
`{inputs: {<dify_input_variable>: text}, response_mode: "blocking",
user: "astrbot-url-summarizer"}` with bearer Authorization and JSON
content type to the configured URL; the call probes the oracle only at
that request; and any non-2xx status makes `_summarize_text` raise. -/
theorem c8_request_shape_and_non2xx_failure (st : PluginState)
    (text : String) :
    Json.get? (summarizeRequest st text).body "inputs" =
      some (Json.obj [(st.dify_input_variable, Json.str text)]) ∧
    Json.get? (summarizeRequest st text).body "response_mode" =
      some (Json.str "blocking") ∧
    Json.get? (summarizeRequest st text).body "user" =
      some (Json.str "astrbot-url-summarizer") ∧
    (summarizeRequest st text).authorization =
      "Bearer " ++ optStr st.dify_api_key ∧
    (summarizeRequest st text).url = st.dify_workflow_url ∧
    (summarizeRequest st text).contentType = "application/json" ∧
    (∀ f g : HttpRequest → Except String HttpResponse,
      f (summarizeRequest st text) = g (summarizeRequest st text) →
      summarizeText st text f = summarizeText st text g) ∧
    (∀ status data, is2xx status = false →
      summarizeText st text
        (fun _ => Except.ok { status := status, body := data }) =
        Except.error (httpStatusErrMsg status)) := by
  refine ⟨rfl, rfl, rfl, rfl, rfl, rfl, ?_, ?_⟩
  · intro f g hfg
    unfold summarizeText
    rw [hfg]
  · intro status data hbad
    rw [summarizeText_fixed, hbad]
    simp

/-- Witness for C8 at a concrete state, text, oracle pair and a 500
response. -/
theorem c8_witness :
    Json.get? (summarizeRequest stConfigured "hello world").body "inputs" =
      some (Json.obj [("transcript", Json.str "hello world")]) ∧
    summarizeText stConfigured "hello world" httpHappy =
      summarizeText stConfigured "hello world" httpHappy ∧
    summarizeText stConfigured "hello world"
      (fun _ => Except.ok { status := 500, body := Json.obj [] }) =
      Except.error (httpStatusErrMsg 500) := by
  have h := c8_request_shape_and_non2xx_failure stConfigured "hello world"
  exact ⟨h.1, h.2.2.2.2.2.2.1 httpHappy httpHappy rfl,
         h.2.2.2.2.2.2.2 500 (Json.obj []) rfl⟩

/-- Claim C4 counterexample: a configuration whose `dify_input_variable`
is stored as the empty string still validates (the three checked values
are truthy and both providers resolve), so a pipeline request is
accepted while a provider-configuration field is empty. -/
theorem c4_counterexample_empty_field_accepted :
    (pluginInit cfgEmptyInputVar regBoth).state.is_configured = true ∧
    (pluginInit cfgEmptyInputVar regBoth).state.dify_input_variable = "" ∧
    (runHandler (pluginInit cfgEmptyInputVar regBoth).state envHappy []).downloadCalled
      = true ∧
    (runHandler (pluginInit cfgEmptyInputVar regBoth).state envHappy []).notifications
      ≠ [configErrorMsg] := by
  refine ⟨rfl, rfl, rfl, ?_⟩
  have hn : (runHandler (pluginInit cfgEmptyInputVar regBoth).state envHappy []).notifications =
      [processingMsg, downloadedMsg, transcribedMsg,
       summaryMsg "Summary: greeting"] := rfl
  rw [hn]
  simp

/-- Claim C4 (amended): before any request is accepted, the STT provider
id, the Dify provider id and the workflow URL must be truthy (and both
providers must resolve with api keys); the input and answer field names
are not validated and may be empty.  When any of the three checked
values is empty or absent, `is_configured` stays false and every run is
rejected with the single configuration-error notification. -/
theorem c4_amended_three_field_validation (cfg : RawConfig)
    (registry : String → Option Provider) :
    ((pluginInit cfg registry).state.is_configured = true →
      truthy cfg.stt_provider_id = true ∧ truthy cfg.dify_provider_id = true ∧
      truthy cfg.dify_workflow_url = true ∧
      ((registry (cfg.stt_provider_id.getD "")).bind Provider.api_key).isSome
        = true ∧
      ((registry (cfg.dify_provider_id.getD "")).bind Provider.api_key).isSome
        = true) ∧
    ((truthy cfg.stt_provider_id && truthy cfg.dify_provider_id &&
        truthy cfg.dify_workflow_url) = false →
      (pluginInit cfg registry).state.is_configured = false ∧
      ∀ env fs0,
        (runHandler (pluginInit cfg registry).state env fs0).notifications =
          [configErrorMsg] ∧
        (runHandler (pluginInit cfg registry).state env fs0).downloadCalled =
          false) := by
  constructor
  · intro hconf
    cases hb : (truthy cfg.stt_provider_id && truthy cfg.dify_provider_id &&
        truthy cfg.dify_workflow_url) with
    | false =>
      exfalso
      rw [show (pluginInit cfg registry).state.is_configured = false by
        simp [pluginInit, hb]] at hconf
      exact absurd hconf (by decide)
    | true =>
      have hb2 := hb
      rw [Bool.and_eq_true, Bool.and_eq_true] at hb2
      cases hm1 : (registry (cfg.stt_provider_id.getD "")).bind Provider.api_key with
      | none =>
        exfalso
        rw [show (pluginInit cfg registry).state.is_configured = false by
          simp [pluginInit, hb, hm1]] at hconf
        exact absurd hconf (by decide)
      | some sttKey =>
        cases hm2 : (registry (cfg.dify_provider_id.getD "")).bind Provider.api_key with
        | none =>
          exfalso
          rw [show (pluginInit cfg registry).state.is_configured = false by
            simp [pluginInit, hb, hm1, hm2]] at hconf
          exact absurd hconf (by decide)
        | some difyKey =>
          refine ⟨hb2.1.1, hb2.1.2, hb2.2, ?_, ?_⟩ <;> simp [hm1, hm2]
  · intro hb
    have hstate : (pluginInit cfg registry).state.is_configured = false := by
      simp [pluginInit, hb]
    refine ⟨hstate, ?_⟩
    intro env fs0
    constructor <;> simp [runHandler, hstate]

/-- Witness for the amended C4: the forward direction at the accepted
empty-field configuration, the rejection direction at the configuration
missing its STT provider id. -/
theorem c4_amended_witness :
    (truthy cfgEmptyInputVar.stt_provider_id = true ∧
     truthy cfgEmptyInputVar.dify_provider_id = true ∧
     truthy cfgEmptyInputVar.dify_workflow_url = true ∧
     ((regBoth (cfgEmptyInputVar.stt_provider_id.getD "")).bind
        Provider.api_key).isSome = true ∧
     ((regBoth (cfgEmptyInputVar.dify_provider_id.getD "")).bind
        Provider.api_key).isSome = true) ∧
    ((pluginInit cfgMissingStt regBoth).state.is_configured = false ∧
     (runHandler (pluginInit cfgMissingStt regBoth).state envHappy []).notifications =
       [configErrorMsg]) := by
  refine ⟨(c4_amended_three_field_validation cfgEmptyInputVar regBoth).1 rfl, ?_⟩
  have h := (c4_amended_three_field_validation cfgMissingStt regBoth).2 rfl
  exact ⟨h.1, (h.2 envHappy []).1⟩

/-- Claim C9 counterexample: for an instance whose configuration
validation failed, the httpx client is created (once) in `__init__` but
`terminate` performs zero `aclose` calls — the close is guarded by
`if self.is_configured`. -/
theorem c9_counterexample_unconfigured_never_closed :
    (pluginInit cfgMissingStt regBoth).httpx_clients_created = 1 ∧
    (pluginInit cfgMissingStt regBoth).state.is_configured = false ∧
    terminatePlugin (pluginInit cfgMissingStt regBoth).state = 0 ∧
    terminatePlugin (pluginInit cfgMissingStt regBoth).state ≠ 1 := by
  refine ⟨rfl, rfl, rfl, ?_⟩
  rw [show terminatePlugin (pluginInit cfgMissingStt regBoth).state = 0 from rfl]
  decide

/-- Claim C9 (amended): every construction creates the shared httpx
client exactly once, before validation; termination closes it exactly
once when configuration validation succeeded and never when it failed. -/
theorem c9_amended_client_lifecycle (cfg : RawConfig)
    (registry : String → Option Provider) :
    (pluginInit cfg registry).httpx_clients_created = 1 ∧
    ((pluginInit cfg registry).state.is_configured = true →
      terminatePlugin (pluginInit cfg registry).state = 1) ∧
    ((pluginInit cfg registry).state.is_configured = false →
      terminatePlugin (pluginInit cfg registry).state = 0) := by
  refine ⟨?_, ?_, ?_⟩
  · cases hb : (truthy cfg.stt_provider_id && truthy cfg.dify_provider_id &&
        truthy cfg.dify_workflow_url) with
    | false => simp [pluginInit, hb]
    | true =>
      cases hm1 : (registry (cfg.stt_provider_id.getD "")).bind Provider.api_key with
      | none => simp [pluginInit, hb, hm1]
      | some k =>
        cases hm2 : (registry (cfg.dify_provider_id.getD "")).bind Provider.api_key with
        | none => simp [pluginInit, hb, hm1, hm2]
        | some k2 => simp [pluginInit, hb, hm1, hm2]
  · intro h; simp [terminatePlugin, h]
  · intro h; simp [terminatePlugin, h]

/-- Witness for the amended C9 at a configured and an unconfigured
construction. -/
theorem c9_amended_witness :
    (pluginInit cfgEmptyInputVar regBoth).httpx_clients_created = 1 ∧
    terminatePlugin (pluginInit cfgEmptyInputVar regBoth).state = 1 ∧
    terminatePlugin (pluginInit cfgMissingStt regBoth).state = 0 := by
  refine ⟨(c9_amended_client_lifecycle cfgEmptyInputVar regBoth).1,
    (c9_amended_client_lifecycle cfgEmptyInputVar regBoth).2.1 rfl,
    (c9_amended_client_lifecycle cfgMissingStt regBoth).2.2 rfl⟩
